import Mathlib

/-!
Verification development for the `edf-merge` repository, centred on the
multiprocess variant (`edf_merge_multiprocess.py`).

Timestamps are modelled as `Int` seconds since an arbitrary epoch.  A Python
`datetime` is totally ordered and supports subtraction into a `timedelta`
(seconds), `replace(hour=..., minute=0, second=0, microsecond=0)` (keep the
date, reset the clock), and addition of a `timedelta`; all of these are plain
integer arithmetic on seconds, with the date of `t` being `t.fdiv 86400`.

Python locals that may be read before assignment (`prev_time_end`,
`curr_interval_t0`, `curr_interval_tf`, `curr_interval_end` in `parse_find`)
are modelled as `Option` values; reading `none` produces an
`UnboundLocalError` in the `Except String` monad, exactly as CPython raises.
-/

namespace EdfMerge

/-- One data row of the catalog csv: `row[0]` is the file name, `row[2]` the
start-time string and `row[3]` the end-time string (both parsed by
`str_to_time` into timestamps, modelled as `Int` seconds). -/
structure CatalogRecord where
  name : String
  startTime : Int
  endTime : Int
deriving Repr, DecidableEq

/-- `class Interval(NamedTuple)` of the source: a half-open index range
`[start, stop)` over the catalog rows plus the wall-clock span `t0`..`tf`.
The source calls the second field `end`, which is a Lean keyword. -/
structure Interval where
  start : Nat
  stop : Nat
  t0 : Int
  tf : Int
deriving Repr, DecidableEq

/-- `@dataclass Night`: an ordered list of intervals (`add` appends). -/
structure Night where
  intervals : List Interval
deriving Repr, DecidableEq

/-- `NIGHT_START_HOUR: int = 21`. -/
def NIGHT_START_HOUR : Int := 21

/-- `NIGHT_DURATION = datetime.timedelta(hours=11)`, in seconds. -/
def NIGHT_DURATION : Int := 11 * 3600

/-- `FILE_CONCAT_LIMIT: float = float('inf')`.  A Python `int` compared with
`float('inf')` by `>=` is always smaller, so the infinite limit is `none` and
a finite limit `k` is `some k`. -/
def FILE_CONCAT_LIMIT : Option Nat := none

/-- `count >= FILE_CONCAT_LIMIT` of line 223: `False` against `float('inf')`,
ordinary comparison against a finite limit. -/
def countReached (count : Nat) (limit : Option Nat) : Bool :=
  match limit with
  | none => false
  | some k => k ≤ count

/-- `t.replace(hour=NIGHT_START_HOUR, minute=0, second=0, microsecond=0)`:
keep the date of `t` (floor-division by 86400 seconds) and set the clock to
21:00:00. -/
def dateAtNightStart (t : Int) : Int :=
  t.fdiv 86400 * 86400 + NIGHT_START_HOUR * 3600

/-- Reading a Python local that may be unassigned: `none` raises
`UnboundLocalError`. -/
def getLocal {α : Type} (v : Option α) (nm : String) : Except String α :=
  match v with
  | some x => Except.ok x
  | none => Except.error ("UnboundLocalError: " ++ nm)

/-- The message of the `assert curr_name in all_files` failure (line 200). -/
def assertMsg : String :=
  "AssertionError: csv references EDF file not in directory."

/-- The mutable locals of `parse_find` (lines 179-232).  `winStart`/`winEnd`
are the `start`/`end` night-window bounds; the remaining fields carry the
source's names.  `currIntervalT0`, `currIntervalTf`, `prevTimeEnd` and
`currIntervalEnd` start unassigned (the line-188 initialisation assigns the
misspelt dead variable `curr_intervaL_t0`, not `curr_interval_t0`). -/
structure ParseState where
  winStart : Int
  winEnd : Int
  nights : List Night
  currNight : List Interval
  currIntervalStart : Nat
  currIntervalT0 : Option Int
  currIntervalTf : Option Int
  count : Nat
  newIntervalFlag : Bool
  prevTimeEnd : Option Int
  currIntervalEnd : Option Nat
deriving Repr, DecidableEq

/-- The body of the `for curr_interval_end, row in enumerate(csv_reader)` loop
(lines 196-232), for the row of index `i`.  Branches in source order:
the assert (line 200), the pre-window skip (201-204), the new-interval-flag
open (205-208), the night-boundary close (210-220), the gap/count close
(223-228), and the accumulation (231-232). -/
def parseStep (all_files : List String) (margin : Int) (limit : Option Nat)
    (i : Nat) (r : CatalogRecord) (s0 : ParseState) : Except String ParseState :=
  if r.name ∈ all_files then
    let s := { s0 with currIntervalEnd := some i }
    if r.startTime < s.winStart - margin then
      Except.ok { s with newIntervalFlag := true, prevTimeEnd := some r.endTime }
    else
      let s := if s.newIntervalFlag then
          { s with newIntervalFlag := false, currIntervalStart := i,
                   currIntervalT0 := some r.startTime }
        else s
      do
      let s ←
        if s.winEnd ≤ r.startTime then do
          let tf ← getLocal s.prevTimeEnd "prev_time_end"
          let t0 ← getLocal s.currIntervalT0 "curr_interval_t0"
          let ns := dateAtNightStart r.startTime
          Except.ok { s with
            nights := s.nights ++
              [⟨s.currNight ++ [⟨s.currIntervalStart, i, t0, tf⟩]⟩],
            currNight := [],
            winStart := ns, winEnd := ns + NIGHT_DURATION,
            count := 0, currIntervalTf := some tf }
        else Except.ok s
      let pe ← getLocal s.prevTimeEnd "prev_time_end"
      let s ←
        if margin < r.startTime - pe ∨ countReached s.count limit then do
          let t0 ← getLocal s.currIntervalT0 "curr_interval_t0"
          Except.ok { s with
            currNight := s.currNight ++ [⟨s.currIntervalStart, i, t0, pe⟩],
            currIntervalStart := i + 1, count := 0, currIntervalTf := some pe }
        else Except.ok s
      Except.ok { s with prevTimeEnd := some r.endTime, count := s.count + 1 }
  else Except.error assertMsg

/-- The whole csv loop: rows processed in order, `i` the enumerate index. -/
def parseLoop (all_files : List String) (margin : Int) (limit : Option Nat) :
    Nat → List CatalogRecord → ParseState → Except String ParseState
  | _, [], s => Except.ok s
  | i, r :: rs, s => do
      let s' ← parseStep all_files margin limit i r s
      parseLoop all_files margin limit (i + 1) rs s'

/-- The tail case (lines 233-238): flush the pending interval only when
`curr_interval_t0 > curr_interval_tf`, reading both possibly-unbound locals
(and `prev_time_end`, `curr_interval_end` when flushing). -/
def parseTail (s : ParseState) : Except String (List Night) := do
  let t0 ← getLocal s.currIntervalT0 "curr_interval_t0"
  let tf ← getLocal s.currIntervalTf "curr_interval_tf"
  if tf < t0 then do
    let pe ← getLocal s.prevTimeEnd "prev_time_end"
    let ie ← getLocal s.currIntervalEnd "curr_interval_end"
    Except.ok (s.nights ++ [⟨s.currNight ++ [⟨s.currIntervalStart, ie, t0, pe⟩]⟩])
  else Except.ok s.nights

/-- `parse_find` (lines 173-241), generalised over the concat limit the
source hardwires to `FILE_CONCAT_LIMIT`.  `get_first_date` (lines 166-170)
reads the first data row's column 3 — the first record's END time — and
raises `StopIteration` when there is no data row; the night window is
anchored to that date at `NIGHT_START_HOUR` for `NIGHT_DURATION`. -/
def parse_find_gen (limit : Option Nat) (records : List CatalogRecord)
    (all_files : List String) (margin : Int) : Except String (List Night) :=
  match records.head? with
  | none => Except.error "StopIteration"
  | some r0 =>
    let ws := dateAtNightStart r0.endTime
    let init : ParseState :=
      { winStart := ws, winEnd := ws + NIGHT_DURATION,
        nights := [], currNight := [], currIntervalStart := 0,
        currIntervalT0 := none, currIntervalTf := none,
        count := 0, newIntervalFlag := true,
        prevTimeEnd := none, currIntervalEnd := none }
    match parseLoop all_files margin limit 0 records init with
    | Except.error e => Except.error e
    | Except.ok final => parseTail final

/-- `parse_find` exactly as the source runs it: concat limit `float('inf')`. -/
def parse_find (records : List CatalogRecord) (all_files : List String)
    (margin : Int) : Except String (List Night) :=
  parse_find_gen FILE_CONCAT_LIMIT records all_files margin

/-! ## The per-night worker (`process_night`, lines 244-263)

A decoded signal buffer is abstracted to the list of segment files folded
into it: `to_edf` + `scalp_trim_and_decimate` decode one file (the external
codec may fail), `mne.concatenate_raws` is `++`, and the filter chain
(bandpass, notch, detrend, scale) transforms samples pointwise, which is the
identity on the file-list abstraction. -/

/-- A decoded buffer, as the list of source segment files it concatenates. -/
abbrev Buffer := List String

/-- One export artifact: the output file name and the buffer written to it. -/
abbrev Artifact := String × Buffer

/-- Python/ctypes indexing `l[i]`: a negative index counts from the end; an
index out of range raises `IndexError`. -/
def pyIndex {α : Type} (l : List α) (i : Int) : Except String α :=
  let j : Int := if i < 0 then i + l.length else i
  if 0 ≤ j then
    match l[j.toNat]? with
    | some x => Except.ok x
    | none => Except.error "IndexError"
  else Except.error "IndexError"

/-- Python slicing `l[a:b]`: negative bounds count from the end, then both
bounds clamp to `[0, len(l)]`. -/
def pySlice {α : Type} (l : List α) (a b : Int) : List α :=
  let n : Int := l.length
  let a' : Int := min (max (if a < 0 then a + n else a) 0) n
  let b' : Int := min (max (if b < 0 then b + n else b) 0) n
  (l.take b'.toNat).drop a'.toNat

/-- The `out_name` of line 249 with the `.edf` suffix `export` (line 131)
appends: patient id, 1-based night number, 1-based interval number, `_scalp`
tag.  The reference mode (`'bipolar'`, line 263) does not appear in the name. -/
def outName (patient : String) (night_num interval_num : Nat) : String :=
  patient ++ "_night_" ++ toString (night_num + 1) ++ "." ++
    toString (interval_num + 1) ++ "_scalp.edf"

/-- The body of `process_night`'s per-interval loop (lines 245-263) for one
slot of the shared `cnights` array: read the slot's `(start, end)` pair,
decode `edfs_list[start]`, fold `edfs_list[start+1:end]` one file at a time,
filter, export.  `decode` is the external codec. -/
def intervalSlot (decode : String → Except String Buffer)
    (edfs_list : List String) (cnights : List Int) (cnight_width : Nat)
    (patient : String) (night_num interval_num : Nat) :
    Except String Artifact := do
  let s ← pyIndex cnights (night_num * cnight_width + interval_num * 2)
  let e ← pyIndex cnights (night_num * cnight_width + interval_num * 2 + 1)
  let f0 ← pyIndex edfs_list s
  let r0 ← decode f0
  let res ← (pySlice edfs_list (s + 1) e).foldlM
    (fun acc file => do
      let t ← decode file
      Except.ok (acc ++ t)) r0
  Except.ok (outName patient night_num interval_num, res)

/-- The `for interval_num in range(num_cintervals)` loop of `process_night`:
slots run in order; an uncaught exception (there is no `try` in the worker)
aborts the loop, keeping the artifacts already exported.  Arguments: next
slot index, slots remaining. -/
def processSlots (decode : String → Except String Buffer)
    (edfs_list : List String) (cnights : List Int) (cnight_width : Nat)
    (patient : String) (night_num : Nat) :
    Nat → Nat → List Artifact × Option String
  | _, 0 => ([], none)
  | iv, k + 1 =>
    match intervalSlot decode edfs_list cnights cnight_width patient night_num iv with
    | Except.error e => ([], some e)
    | Except.ok a =>
      let rest := processSlots decode edfs_list cnights cnight_width patient
        night_num (iv + 1) k
      (a :: rest.1, rest.2)

/-- `process_night(night_num)` (lines 244-263): returns the artifacts the
worker exported, in order, and the exception that aborted it, if any. -/
def process_night (decode : String → Except String Buffer)
    (edfs_list : List String) (cnights : List Int)
    (cnight_width num_cintervals : Nat) (patient : String)
    (night_num : Nat) : List Artifact × Option String :=
  processSlots decode edfs_list cnights cnight_width patient night_num 0
    num_cintervals

/-- `pool.map(process_night, range(num_nights))` (lines 352-353): every night
is a separate pool task over the same read-only shared inputs. -/
def pool_map_nights (decode : String → Except String Buffer)
    (edfs_list : List String) (cnights : List Int)
    (cnight_width num_cintervals : Nat) (patient : String)
    (num_nights : Nat) : List (List Artifact × Option String) :=
  (List.range num_nights).map
    (process_night decode edfs_list cnights cnight_width num_cintervals patient)

/-- Abort-on-first-error semantics over an explicit list of slot results:
the artifacts of the slots before the first failing one, and its error. -/
def runSlots : List (Except String Artifact) → List Artifact × Option String
  | [] => ([], none)
  | Except.error e :: _ => ([], some e)
  | Except.ok a :: rest =>
    let r := runSlots rest
    (a :: r.1, r.2)

/-! ## The driver (`__main__`, lines 316-353)

`parse_find` runs first (line 316); the output directory, the summary and
the worker pool (lines 317-353) are reached only when it returns normally,
so an exception raised during segmentation precedes every worker launch and
every output artifact. -/

/-- The output names the workers would go on to write, one per interval slot
of each night (per §4.2 the nights are padded to the widest night).  Only
reached when segmentation succeeds. -/
def plannedArtifactNames (patient : String) (nights : List Night) : List String :=
  (List.range nights.length).flatMap (fun n =>
    (List.range ((nights.map (fun nt => nt.intervals.length)).foldr max 0)).map
      (fun iv => outName patient n iv))

/-- The pipeline up to worker dispatch: segmentation, then the artifact
names the per-night workers are launched to produce. -/
def runPipeline (patient : String) (records : List CatalogRecord)
    (all_files : List String) (margin : Int) : Except String (List String) := do
  let nights ← parse_find records all_files margin
  Except.ok (plannedArtifactNames patient nights)

/-! ## The reducer's buffer-residency trace (lines 250-256)

`res = scalp_trim_and_decimate(to_edf(...), 200)` decodes the interval's
first segment; each iteration of the `for file in ...` loop decodes one
temporary buffer, merges it into `res` with `mne.concatenate_raws`, and
discards it (`gc.collect()`).  The trace records these events; the resident
count is the number of decoded buffers alive after a prefix of events. -/

/-- One buffer event of the reduction loop. -/
inductive BufOp
  | decode
  | mergeDiscard
deriving Repr, DecidableEq

/-- The loop part of the trace: each of the `k` remaining segments is
decoded and then merged-and-discarded. -/
def reducerTail : Nat → List BufOp
  | 0 => []
  | k + 1 => BufOp.decode :: BufOp.mergeDiscard :: reducerTail k

/-- The event trace for an interval of `n` segments: one initial decode,
then decode-and-merge for each of the remaining `n - 1`. -/
def reducerTrace (n : Nat) : List BufOp :=
  BufOp.decode :: reducerTail (n - 1)

/-- Resident decoded buffers after one event. -/
def residentStep (c : Nat) : BufOp → Nat
  | BufOp.decode => c + 1
  | BufOp.mergeDiscard => c - 1

/-- Resident decoded buffers after the first `j` events of the reduction of
an `n`-segment interval. -/
def residentAfter (n j : Nat) : Nat :=
  ((reducerTrace n).take j).foldl residentStep 0

/-! ## Concrete catalogs

All records live on epoch day 0 (21:00:00 is second 75600, so the first
night window is `[75600, 115200)`) unless stated otherwise; every record is
named `"f"` and `"f"` is present in the directory, so the line-200 assert
never fires on these. -/

/-- One pre-window record, then four in-window 10-second records with an
80-second gap between indices 2 and 3. -/
def catalogGapDrop : List CatalogRecord :=
  [⟨"f", 70000, 70010⟩, ⟨"f", 75600, 75610⟩, ⟨"f", 75610, 75620⟩,
   ⟨"f", 75700, 75710⟩, ⟨"f", 75710, 75720⟩]

/-- The spec's Example 1: 60 records at `t = 21:00:00 + 10k` seconds, each
10 seconds long, all inside the first night window. -/
def catalogExample1 : List CatalogRecord :=
  (List.range 60).map
    (fun k => ⟨"f", 75600 + 10 * (k : Int), 75610 + 10 * (k : Int)⟩)

/-- One pre-window record, one in-window record, and a record starting
exactly at the night window's end (second 115200), 5 seconds after its
predecessor's end. -/
def catalogBoundary : List CatalogRecord :=
  [⟨"f", 70000, 70010⟩, ⟨"f", 115180, 115195⟩, ⟨"f", 115200, 115210⟩]

/-- One pre-window record, then two pairs of in-window records separated by
a 78-second gap; the pass ends with the last interval still open. -/
def catalogTailOpen : List CatalogRecord :=
  [⟨"f", 70000, 70010⟩, ⟨"f", 75600, 75610⟩, ⟨"f", 75612, 75622⟩,
   ⟨"f", 75700, 75710⟩, ⟨"f", 75712, 75722⟩]

/-- One pre-window record, in-window records with a gap split at index 3,
and a final record (index 5) at 21:00:00 of the next day, which crosses the
night boundary. -/
def catalogSplitNight : List CatalogRecord :=
  [⟨"f", 70000, 70010⟩, ⟨"f", 75600, 75610⟩, ⟨"f", 75612, 75622⟩,
   ⟨"f", 75700, 75710⟩, ⟨"f", 75712, 75722⟩, ⟨"f", 162000, 162010⟩]

/-- An external codec that fails on segment `"a"` and decodes any other
file. -/
def decodeFailA : String → Except String Buffer :=
  fun f => if f = "a" then Except.error "DecodeError: a" else Except.ok [f]

/-- An external codec that decodes every file. -/
def decodeOk : String → Except String Buffer :=
  fun f => Except.ok [f]

/-! ## Claim theorems -/

/-- C1: the Segmenter's Intervals do NOT partition the records with
`startTime ≥ firstNightStart − M`.  On `catalogGapDrop` the records of
indices 1..4 all start at or after `75600 − 15`, yet `parse_find` returns no
Night at all — the current night is only ever appended on a night-boundary
crossing or by the tail case, and the tail guard `t0 > tf` is false here
(`t0 = 75600 ≤ tf = 75620`), so every in-window record ends up in no
Interval. -/
theorem C1_code_result :
    (∃ r ∈ catalogGapDrop, ¬ r.startTime < 75600 - 15) ∧
    parse_find catalogGapDrop ["f"] 15 = Except.ok [] :=
  ⟨by decide, rfl⟩

/-- C2: on the spec's Example 1 (all 60 records inside the first night
window, `M = 15`, `K = ∞`) the code does not return one Night with one
Interval `[0, 60)`: because record 0 is not pre-window, `prev_time_end` is
still unassigned when line 223 evaluates `curr_time_start - prev_time_end`,
and `parse_find` raises `UnboundLocalError`. -/
theorem C2_code_result :
    (∀ r ∈ catalogExample1,
      75600 ≤ r.startTime ∧ r.startTime < 75600 + NIGHT_DURATION) ∧
    parse_find catalogExample1 ["f"] 15 =
      Except.error "UnboundLocalError: prev_time_end" :=
  ⟨by decide, rfl⟩

/-- C3: a record starting exactly at `window.end` (index 2, second 115200 of
`catalogBoundary`) closes the current interval and the current Night, but
does NOT become the first record of a fresh Interval of the new Night: the
night-boundary branch resets neither `curr_interval_start` nor
`curr_interval_t0` nor the new-interval flag, so no output interval has
`t0 = 115200`, and the new Night is never emitted at all (the tail guard
`t0 > tf` is false). -/
theorem C3_code_result :
    parse_find catalogBoundary ["f"] 15 =
      Except.ok [⟨[⟨1, 1, 115180, 70010⟩, ⟨2, 2, 115180, 115195⟩]⟩] ∧
    ∀ nt ∈ [Night.mk [⟨1, 1, 115180, 70010⟩, ⟨2, 2, 115180, 115195⟩]],
      ∀ iv ∈ nt.intervals, iv.t0 ≠ 115200 :=
  ⟨rfl, by decide⟩

/-- C4: the final open interval IS dropped for some inputs.  After the
gap split at index 3 of `catalogTailOpen`, the pass ends with an open
interval (start index 4, records folded) and a non-empty current Night, but
the tail guard `curr_interval_t0 > curr_interval_tf` compares the stale
`t0 = 75600` with `tf = 75622` and is false, so nothing is flushed and
`parse_find` returns no Night at all. -/
theorem C4_code_result :
    parse_find catalogTailOpen ["f"] 15 = Except.ok [] :=
  rfl

/-- C5 (counterexample): on `catalogSplitNight`, the gap split at record 3
closes the interval `[2, 3)` (gap `75700 − 75622 = 78 > 15`), but the next
interval in the output is `[4, 5)` — no interval starts at index 3, so the
split does NOT "start a new one at this record"; record 3 lies in no
Interval, and the stale `t0 = 75600` is reused for every later interval. -/
theorem C5_counterexample :
    parse_find catalogSplitNight ["f"] 15 =
      Except.ok [⟨[⟨1, 1, 75600, 70010⟩, ⟨2, 3, 75600, 75622⟩,
        ⟨4, 5, 75600, 75722⟩]⟩] ∧
    ∀ nt ∈ [Night.mk [⟨1, 1, 75600, 70010⟩, ⟨2, 3, 75600, 75622⟩,
        ⟨4, 5, 75600, 75722⟩]],
      ∀ iv ∈ nt.intervals, iv.start ≠ 3 :=
  ⟨rfl, by decide⟩

/-- C6 (counterexample): on an empty record set the Segmenter does not
return an empty Night list; `get_first_date` raises `StopIteration` reading
the missing first data row. -/
theorem C6_counterexample :
    parse_find [] ["f"] 15 ≠ Except.ok [] ∧
    parse_find [] ["f"] 15 = Except.error "StopIteration" := by
  refine ⟨?_, rfl⟩
  intro h
  rw [show parse_find [] ["f"] 15 = Except.error "StopIteration" from rfl] at h
  exact Except.noConfusion h

/-- C6 (amended): for an empty record set the Segmenter raises
`StopIteration` (from `get_first_date`'s read of the first data row), for
every directory set and margin. -/
theorem C6_amended :
    ∀ (all_files : List String) (margin : Int),
      parse_find [] all_files margin = Except.error "StopIteration" := by
  intro all_files margin
  rfl

/-- C8 (counterexample): night 0 has two intervals, `[0, 1)` over segment
`"a"` and `[1, 2)` over segment `"b"`; the codec fails on `"a"` only.  The
worker aborts with the decode error and exports NO artifact, even though the
second interval of the same night decodes fine on its own — the remaining
intervals of the night are not processed. -/
theorem C8_counterexample :
    process_night decodeFailA ["a", "b"] [0, 1, 1, 2] 4 2 "PR" 0 =
      ([], some "DecodeError: a") ∧
    intervalSlot decodeFailA ["a", "b"] [0, 1, 1, 2] 4 "PR" 0 1 =
      Except.ok ("PR_night_1.2_scalp.edf", ["b"]) :=
  ⟨rfl, rfl⟩

/-- C10: sentinel-padded slots DO produce processing and an artifact.  Night
1 has one real interval `[2, 3)`; its second slot is the sentinel pair
`(-1, -1)`.  The worker never tests for the sentinel: Python indexing makes
`edfs_list[-1]` the last file and `edfs_list[0:-1]` all files but the last,
so the sentinel slot decodes and concatenates `["c", "a", "b"]` and exports
it as the bogus artifact `PR_night_2.2_scalp.edf`. -/
theorem C10_code_result :
    process_night decodeOk ["a", "b", "c"] [0, 1, 1, 2, 2, 3, -1, -1] 4 2 "PR" 1 =
      ([("PR_night_2.1_scalp.edf", ["c"]),
        ("PR_night_2.2_scalp.edf", ["c", "a", "b"])], none) :=
  rfl

/-- Helper for C9: from a state with one resident buffer (the running
`res`), any prefix of the decode/merge loop keeps at most two buffers
resident. -/
theorem reducerTail_foldl_le (k : Nat) :
    ∀ j : Nat, ((reducerTail k).take j).foldl residentStep 1 ≤ 2 := by
  induction k with
  | zero =>
    intro j
    simp [reducerTail]
  | succ k ih =>
    intro j
    match j with
    | 0 => simp
    | 1 => simp [reducerTail, residentStep]
    | Nat.succ (Nat.succ j) =>
      simpa [reducerTail, residentStep] using ih j

/-- C9: during the per-Interval reduction of an interval of `n` segments,
after any prefix of the decode/merge-discard event trace at most two decoded
buffers are simultaneously resident, for every `n`. -/
theorem C9_reducer_bound : ∀ (n j : Nat), residentAfter n j ≤ 2 := by
  intro n j
  match j with
  | 0 => simp [residentAfter]
  | Nat.succ j =>
    simpa [residentAfter, reducerTrace, residentStep] using
      reducerTail_foldl_le (n - 1) j

/-! ## General lemmas about the step, the loop and the tail -/

theorem except_bind_ok {ε α β : Type} (a : α) (f : α → Except ε β) :
    (Except.ok a >>= f) = f a := rfl

theorem except_bind_error {ε α β : Type} (e : ε) (f : α → Except ε β) :
    ((Except.error e : Except ε α) >>= f) = Except.error e := rfl

theorem getLocal_some {α : Type} (x : α) (nm : String) :
    getLocal (some x) nm = Except.ok x := rfl

theorem getLocal_none {α : Type} (nm : String) :
    getLocal (none : Option α) nm =
      Except.error ("UnboundLocalError: " ++ nm) := rfl

theorem ub_pe_ne_assert : "UnboundLocalError: prev_time_end" ≠ assertMsg := by
  decide

theorem ub_t0_ne_assert : "UnboundLocalError: curr_interval_t0" ≠ assertMsg := by
  decide

theorem ub_tf_ne_assert : "UnboundLocalError: curr_interval_tf" ≠ assertMsg := by
  decide

theorem ub_ie_ne_assert : "UnboundLocalError: curr_interval_end" ≠ assertMsg := by
  decide

theorem stop_ne_assert : "StopIteration" ≠ assertMsg := by
  decide

/-- A step that returns normally passed the line-200 assert. -/
theorem parseStep_ok_name {all_files : List String} {margin : Int}
    {limit : Option Nat} {i : Nat} {r : CatalogRecord} {s s' : ParseState}
    (h : parseStep all_files margin limit i r s = Except.ok s') :
    r.name ∈ all_files := by
  by_contra hn
  unfold parseStep at h
  rw [if_neg hn] at h
  exact Except.noConfusion h

/-- The only way a step raises the assert message is a failed assert: every
other exception of the loop body is an `UnboundLocalError`. -/
theorem parseStep_error_assert {all_files : List String} {margin : Int}
    {limit : Option Nat} {i : Nat} {r : CatalogRecord} {s : ParseState}
    (h : parseStep all_files margin limit i r s = Except.error assertMsg) :
    ¬ r.name ∈ all_files := by
  intro hmem
  unfold parseStep at h
  rw [if_pos hmem] at h
  rcases s with ⟨ws, we, ns, cn, cis, t0?, tf?, cnt, flag, pe?, cie?⟩
  dsimp only at h
  cases flag <;> cases pe? <;> cases t0? <;>
    split_ifs at h <;>
    simp_all [getLocal_some, getLocal_none, except_bind_ok, except_bind_error,
      assertMsg]
  all_goals
    split_ifs at h <;>
      simp_all [getLocal_some, getLocal_none, except_bind_ok,
        except_bind_error, assertMsg]

theorem parseLoop_ok_names {all_files : List String} {margin : Int}
    {limit : Option Nat} :
    ∀ (rs : List CatalogRecord) (i : Nat) (s s' : ParseState),
      parseLoop all_files margin limit i rs s = Except.ok s' →
        ∀ q ∈ rs, q.name ∈ all_files := by
  intro rs
  induction rs with
  | nil =>
    intro i s s' _ q hq
    exact absurd hq (List.not_mem_nil q)
  | cons r rs ih =>
    intro i s s' h q hq
    simp only [parseLoop] at h
    cases hstep : parseStep all_files margin limit i r s with
    | error e =>
      rw [hstep, except_bind_error] at h
      exact Except.noConfusion h
    | ok mid =>
      rw [hstep, except_bind_ok] at h
      rcases List.mem_cons.mp hq with rfl | hq'
      · exact parseStep_ok_name hstep
      · exact ih (i + 1) mid s' h q hq'

theorem parseLoop_error_assert {all_files : List String} {margin : Int}
    {limit : Option Nat} :
    ∀ (rs : List CatalogRecord) (i : Nat) (s : ParseState),
      parseLoop all_files margin limit i rs s = Except.error assertMsg →
        ∃ q ∈ rs, ¬ q.name ∈ all_files := by
  intro rs
  induction rs with
  | nil =>
    intro i s h
    exact absurd h (by simp [parseLoop])
  | cons r rs ih =>
    intro i s h
    simp only [parseLoop] at h
    cases hstep : parseStep all_files margin limit i r s with
    | error e =>
      rw [hstep, except_bind_error] at h
      injection h with h
      exact ⟨r, List.mem_cons_self r rs,
        parseStep_error_assert (hstep.trans (by rw [h]))⟩
    | ok mid =>
      rw [hstep, except_bind_ok] at h
      obtain ⟨q, hq, hqn⟩ := ih (i + 1) mid h
      exact ⟨q, List.mem_cons_of_mem r hq, hqn⟩

/-- The tail case only raises `UnboundLocalError`s, never the assert. -/
theorem parseTail_ne_assert (s : ParseState) :
    parseTail s ≠ Except.error assertMsg := by
  intro h
  rcases s with ⟨ws, we, ns, cn, cis, t0?, tf?, cnt, flag, pe?, cie?⟩
  unfold parseTail at h
  cases t0? <;> cases tf? <;> cases pe? <;> cases cie? <;>
    simp_all [getLocal_some, getLocal_none, except_bind_ok, except_bind_error,
      assertMsg]
  all_goals
    split_ifs at h <;>
      simp_all [getLocal_some, getLocal_none, except_bind_ok,
        except_bind_error, assertMsg]

theorem parse_find_ok_names {records : List CatalogRecord}
    {all_files : List String} {margin : Int} {ns : List Night}
    (h : parse_find records all_files margin = Except.ok ns) :
    ∀ r ∈ records, r.name ∈ all_files := by
  cases records with
  | nil =>
    intro r hr
    exact absurd hr (List.not_mem_nil r)
  | cons r0 rs =>
    intro r hr
    unfold parse_find parse_find_gen at h
    simp only [List.head?] at h
    split at h
    next heq => exact Except.noConfusion h
    next final heq => exact parseLoop_ok_names (r0 :: rs) 0 _ final heq r hr

theorem parse_find_error_assert {records : List CatalogRecord}
    {all_files : List String} {margin : Int}
    (h : parse_find records all_files margin = Except.error assertMsg) :
    ∃ r ∈ records, ¬ r.name ∈ all_files := by
  cases records with
  | nil =>
    exfalso
    unfold parse_find parse_find_gen at h
    simp only [List.head?] at h
    injection h with h
    exact stop_ne_assert h
  | cons r0 rs =>
    unfold parse_find parse_find_gen at h
    simp only [List.head?] at h
    split at h
    next e heq =>
      injection h with h
      subst h
      exact parseLoop_error_assert (r0 :: rs) 0 _ heq
    next final heq =>
      exact absurd h (parseTail_ne_assert final)

/-- C7: if some catalog record references a file name absent from the
decoded-source directory, the pipeline fails during segmentation — the
worker-dispatch stage that would produce output artifacts is never reached;
conversely, when every referenced file name is present, the line-200
membership check never raises (no run of `parse_find` can end in the assert
message). -/
theorem C7_validation (patient : String) (records : List CatalogRecord)
    (all_files : List String) (margin : Int) :
    ((∃ r ∈ records, ¬ r.name ∈ all_files) →
      ∃ e, runPipeline patient records all_files margin = Except.error e) ∧
    ((∀ r ∈ records, r.name ∈ all_files) →
      parse_find records all_files margin ≠ Except.error assertMsg) := by
  constructor
  · rintro ⟨r, hr, hn⟩
    cases hp : runPipeline patient records all_files margin with
    | error e => exact ⟨e, rfl⟩
    | ok v =>
      exfalso
      unfold runPipeline at hp
      cases hpf : parse_find records all_files margin with
      | error e =>
        rw [hpf, except_bind_error] at hp
        exact Except.noConfusion hp
      | ok nights =>
        exact hn (parse_find_ok_names hpf r hr)
  · intro hall h
    obtain ⟨q, hq, hqn⟩ := parse_find_error_assert h
    exact hqn (hall q hq)

/-- C7 (witness): a catalog whose single record references the missing file
`"g"` makes the pipeline fail before worker dispatch; a catalog whose single
record references the present file `"h"` never trips the membership
assert. -/
theorem C7_witness :
    (∃ e, runPipeline "PR" [⟨"g", 0, 1⟩] [] 15 = Except.error e) ∧
    parse_find [⟨"h", 75600, 75610⟩] ["h"] 15 ≠ Except.error assertMsg :=
  ⟨(C7_validation "PR" [⟨"g", 0, 1⟩] [] 15).1
      ⟨⟨"g", 0, 1⟩, by simp, by simp⟩,
    (C7_validation "PR" [⟨"h", 75600, 75610⟩] ["h"] 15).2 (by simp)⟩

/-- C5 (amended): with an interval open (flag cleared, `t0` and `prevEnd`
assigned) and a record that is neither pre-window nor at/after the night
boundary, the step closes the current interval if and only if
`start_i − prevEnd > M` (strictly) or `count ≥ K`; the closed interval gets
`tf = prevEnd` and end index `i`, and the NEXT interval is set to begin at
index `i + 1` — the splitting record itself joins no interval and
`curr_interval_t0` keeps its previous value.  `K = ∞` (`limit = none`)
makes `countReached` false, disabling the count-based split. -/
theorem C5_amended (all_files : List String) (margin : Int) (limit : Option Nat)
    (i : Nat) (r : CatalogRecord) (winStart winEnd : Int) (nights : List Night)
    (currNight : List Interval) (cis : Nat) (t0 : Int) (ctf : Option Int)
    (count : Nat) (pe : Int) (cie : Option Nat)
    (hname : r.name ∈ all_files)
    (hskip : ¬ r.startTime < winStart - margin)
    (hnight : r.startTime < winEnd) :
    parseStep all_files margin limit i r
      ⟨winStart, winEnd, nights, currNight, cis, some t0, ctf, count, false,
        some pe, cie⟩ =
      (if margin < r.startTime - pe ∨ countReached count limit then
        Except.ok ⟨winStart, winEnd, nights, currNight ++ [⟨cis, i, t0, pe⟩],
          i + 1, some t0, some pe, 1, false, some r.endTime, some i⟩
      else
        Except.ok ⟨winStart, winEnd, nights, currNight, cis, some t0, ctf,
          count + 1, false, some r.endTime, some i⟩) := by
  have hn' : ¬ winEnd ≤ r.startTime := not_le.mpr hnight
  unfold parseStep
  rw [if_pos hname]
  dsimp only
  rw [if_neg hskip, if_neg Bool.false_ne_true]
  dsimp only
  rw [if_neg hn']
  simp only [getLocal_some, except_bind_ok]

/-- C5 (witness): record index 2 at second 75700, previous record ending at
75622 (gap 78 > 15), inside the night window `[75600, 115200)`. -/
theorem C5_witness :
    parseStep ["f"] 15 none 2 ⟨"f", 75700, 75710⟩
      ⟨75600, 115200, [], [], 1, some 75600, none, 2, false, some 75622,
        some 1⟩ =
      (if (15 : Int) < 75700 - 75622 ∨ countReached 2 none then
        Except.ok ⟨75600, 115200, [], [] ++ [⟨1, 2, 75600, 75622⟩],
          3, some 75600, some 75622, 1, false, some 75710, some 2⟩
      else
        Except.ok ⟨75600, 115200, [], [], 1, some 75600, none,
          3, false, some 75710, some 2⟩) :=
  C5_amended ["f"] 15 none 2 ⟨"f", 75700, 75710⟩ 75600 115200 [] [] 1 75600
    none 2 75622 (some 1) (by simp) (by decide) (by decide)

/-- Helper for C8: the worker's abort-on-first-exception loop computes
exactly the abort-on-first-error semantics of its listed slot results. -/
theorem processSlots_eq_runSlots (decode : String → Except String Buffer)
    (edfs_list : List String) (cnights : List Int) (cnight_width : Nat)
    (patient : String) (night_num : Nat) :
    ∀ (k iv : Nat),
      processSlots decode edfs_list cnights cnight_width patient night_num iv k =
        runSlots ((List.range' iv k).map
          (intervalSlot decode edfs_list cnights cnight_width patient night_num)) := by
  intro k
  induction k with
  | zero => intro iv; rfl
  | succ k ih =>
    intro iv
    rw [List.range'_succ]
    simp only [List.map_cons]
    cases h : intervalSlot decode edfs_list cnights cnight_width patient night_num iv with
    | error e => simp [processSlots, runSlots, h]
    | ok a => simp [processSlots, runSlots, h, ih]

/-- C8 (amended): an exception while processing one interval slot (a decode
failure included) aborts that night's worker at that slot: the artifacts of
the slots before it persist, that slot and all later slots of the same night
export nothing, and every other night's outcome is exactly the independent
run of `process_night` on the shared read-only inputs, unaffected by the
failure. -/
theorem C8_amended (decode : String → Except String Buffer)
    (edfs_list : List String) (cnights : List Int)
    (cnight_width num_cintervals num_nights : Nat) (patient : String) :
    (∀ night_num : Nat,
      process_night decode edfs_list cnights cnight_width num_cintervals
          patient night_num =
        runSlots ((List.range num_cintervals).map
          (intervalSlot decode edfs_list cnights cnight_width patient
            night_num))) ∧
    (∀ n : Nat,
      (pool_map_nights decode edfs_list cnights cnight_width num_cintervals
          patient num_nights)[n]? =
        if n < num_nights then
          some (process_night decode edfs_list cnights cnight_width
            num_cintervals patient n)
        else none) := by
  constructor
  · intro ng
    rw [process_night, List.range_eq_range']
    exact processSlots_eq_runSlots decode edfs_list cnights cnight_width
      patient ng num_cintervals 0
  · intro n
    rw [pool_map_nights, List.getElem?_map]
    by_cases hn : n < num_nights
    · rw [List.getElem?_range hn, if_pos hn, Option.map_some']
    · rw [if_neg hn, List.getElem?_eq_none, Option.map_none']
      simpa using Nat.le_of_not_lt hn

end EdfMerge
